import Mathlib

/-!
Verification of the PropAMM off-chain signal engine
(src/offchain/prediction/signal_engine.py).

The engine is a pure decision function from a curve snapshot, a price
forecast and a realized-volatility figure to a sparse update plan.
Python floats are modelled as exact rationals; the Python int cast is
modelled as truncation toward zero; the single ValueError raise is
modelled with Except.
-/

namespace PropAMM

/-- Fee base constant, 1 000 000: the parts-per-FEE_BASE base for spread
values. -/
def FEE_BASE : ℤ := 1000000

/-- The latest on-chain configuration for a trading pair
(Python dataclass CurveSnapshot). -/
structure CurveSnapshot where
  concentration : ℤ
  mult_x : ℤ
  mult_y : ℤ
  spread : ℤ
  target_x : ℤ
  target_y : ℤ
deriving DecidableEq

/-- Instructions for updating PropAMM parameters
(Python dataclass CurveUpdatePlan); the optional fields default to None
in the source. -/
structure CurveUpdatePlan where
  mult_x : ℤ
  mult_y : ℤ
  concentration : ℤ
  spread : Option ℤ := none
  target_x : Option ℤ := none
  target_y : Option ℤ := none
deriving DecidableEq

/-- Engine configuration: the keyword parameters of SignalEngine with
their source defaults. -/
structure SignalEngine where
  price_tolerance : ℚ := 1 / 1000
  volatility_threshold : ℚ := 1 / 50
  concentration_widen_factor : ℚ := 1 / 2
  spread_step : ℤ := 500
  concentration_bounds : ℤ × ℤ := (1000000, 200000000)
deriving DecidableEq

/-- The single error path of the engine: the Python code raises
ValueError with the message that the current price must be positive;
the spec calls this the InvalidInput error. -/
inductive PlanError where
  | invalidInput
deriving DecidableEq

/-- The Python int cast applied to a real number: truncation toward
zero. -/
def pyInt (q : ℚ) : ℤ := if 0 ≤ q then ⌊q⌋ else ⌈q⌉

/-- Shallow embedding of SignalEngine.build_plan: derive a curve
adjustment from price and volatility signals.  Mirrors the Python body
line by line: validation, price ratio and deviation, multiplier-Y
adjustment, volatility branch (concentration and spread),
rebalance-target adjustment, both-or-neither rebalance emission, plan
assembly. -/
def build_plan (e : SignalEngine) (snapshot : CurveSnapshot)
    (predicted_price current_price realized_volatility : ℚ) :
    Except PlanError CurveUpdatePlan :=
  if current_price ≤ 0 then
    Except.error PlanError.invalidInput
  else
    let price_rat : ℚ := predicted_price / current_price
    let deviation : ℚ := |price_rat - 1|
    let mult_x : ℤ := snapshot.mult_x
    let mult_y : ℤ :=
      if e.price_tolerance < deviation then
        max 1 (pyInt ((snapshot.mult_y : ℚ) * price_rat))
      else snapshot.mult_y
    let concentration : ℤ :=
      if e.volatility_threshold < realized_volatility then
        max e.concentration_bounds.1
          (min (pyInt ((snapshot.concentration : ℚ) * e.concentration_widen_factor))
            e.concentration_bounds.2)
      else
        max e.concentration_bounds.1 (min snapshot.concentration e.concentration_bounds.2)
    let new_spread : Option ℤ :=
      if e.volatility_threshold < realized_volatility then
        some (min FEE_BASE (snapshot.spread + e.spread_step))
      else none
    let target_x : ℤ := snapshot.target_x
    let target_y : ℤ :=
      if e.price_tolerance < deviation ∧ 0 < snapshot.target_y then
        pyInt ((snapshot.target_y : ℚ) * price_rat)
      else snapshot.target_y
    let rebalance : Option ℤ × Option ℤ :=
      if target_x ≠ snapshot.target_x ∨ target_y ≠ snapshot.target_y then
        (some target_x, some target_y)
      else (none, none)
    Except.ok
      { mult_x := mult_x
        mult_y := mult_y
        concentration := concentration
        spread := new_spread
        target_x := rebalance.1
        target_y := rebalance.2 }

/-- The engine instance with all configuration left at its defaults. -/
def defaultEngine : SignalEngine := {}

/-! Concrete inputs used for witnesses and counterexamples. -/

/-- A snapshot exercising every adjustment: in-bounds concentration,
nonzero multipliers, small spread, nonzero rebalance targets. -/
def sW : CurveSnapshot :=
  { concentration := 50000000, mult_x := 5, mult_y := 7, spread := 100,
    target_x := 11, target_y := 13 }

/-- Output of the engine on sW with predicted price 3, current price 2
(deviation 1/2) and realized volatility 1/10 (high). -/
def planW : CurveUpdatePlan :=
  { mult_x := 5, mult_y := 10, concentration := 25000000, spread := some 600,
    target_x := some 11, target_y := some 19 }

/-- Output of the engine on sW with predicted price 3, current price 2
and realized volatility 0 (normal). -/
def planLow : CurveUpdatePlan :=
  { mult_x := 5, mult_y := 10, concentration := 50000000, spread := none,
    target_x := some 11, target_y := some 19 }

/-- A snapshot whose mult_y is 1 and whose rebalance targets are zero. -/
def s0 : CurveSnapshot :=
  { concentration := 1000000, mult_x := 0, mult_y := 1, spread := 0,
    target_x := 0, target_y := 0 }

/-- Output of the engine on s0 with predicted price 19, current price 10
(price ratio 19/10) and realized volatility 0. -/
def plan0 : CurveUpdatePlan :=
  { mult_x := 0, mult_y := 1, concentration := 1000000, spread := none,
    target_x := none, target_y := none }

/-- A snapshot with target_y equal to 1 so that truncation and rounding
of the rescaled target disagree at price ratio 19/10. -/
def s3 : CurveSnapshot :=
  { concentration := 1000000, mult_x := 0, mult_y := 0, spread := 0,
    target_x := 7, target_y := 1 }

/-- Output of the engine on s3 with predicted price 19, current price 10
and realized volatility 0. -/
def plan3 : CurveUpdatePlan :=
  { mult_x := 0, mult_y := 1, concentration := 1000000, spread := none,
    target_x := none, target_y := none }

/-- A snapshot whose spread is already FEE_BASE. -/
def s7 : CurveSnapshot :=
  { concentration := 1000000, mult_x := 0, mult_y := 0, spread := 1000000,
    target_x := 0, target_y := 0 }

/-- Output of the engine on s7 with predicted price 1, current price 1
and realized volatility 1/10 (high). -/
def plan7 : CurveUpdatePlan :=
  { mult_x := 0, mult_y := 0, concentration := 1000000, spread := some 1000000,
    target_x := none, target_y := none }

/-! Evaluation lemmas for the concrete inputs. -/

lemma build_plan_sW_eval :
    build_plan defaultEngine sW 3 2 (1 / 10) = Except.ok planW := by
  unfold build_plan
  norm_num [defaultEngine, sW, planW, pyInt, abs_of_nonneg, FEE_BASE]

lemma build_plan_sW_low_eval :
    build_plan defaultEngine sW 3 2 0 = Except.ok planLow := by
  unfold build_plan
  norm_num [defaultEngine, sW, planLow, pyInt, abs_of_nonneg, FEE_BASE]

lemma build_plan_s0_eval :
    build_plan defaultEngine s0 19 10 0 = Except.ok plan0 := by
  unfold build_plan
  norm_num [defaultEngine, s0, plan0, pyInt, abs_of_nonneg, FEE_BASE]

lemma build_plan_s3_eval :
    build_plan defaultEngine s3 19 10 0 = Except.ok plan3 := by
  unfold build_plan
  norm_num [defaultEngine, s3, plan3, pyInt, abs_of_nonneg, FEE_BASE]

lemma build_plan_s7_eval :
    build_plan defaultEngine s7 1 1 (1 / 10) = Except.ok plan7 := by
  unfold build_plan
  norm_num [defaultEngine, s7, plan7, pyInt, abs_of_nonneg, FEE_BASE]

/-! Claim theorems. -/

/-- C1: build_plan raises the InvalidInput error if and only if
current_price ≤ 0; a non-positive current price is the sole error path,
a positive current price never errors and always yields a plan. -/
theorem claim_C1 (e : SignalEngine) (s : CurveSnapshot) (pp cp rv : ℚ) :
    (build_plan e s pp cp rv = Except.error PlanError.invalidInput ↔ cp ≤ 0)
    ∧ (0 < cp → ∃ p, build_plan e s pp cp rv = Except.ok p) := by
  unfold build_plan
  rcases le_or_lt cp 0 with h | h
  · rw [if_pos h]
    exact ⟨⟨fun _ => h, fun _ => rfl⟩, fun hc => absurd h (not_le.mpr hc)⟩
  · rw [if_neg (not_le.mpr h)]
    refine ⟨⟨fun hh => ?_, fun hh => absurd h (not_lt.mpr hh)⟩, fun _ => ⟨_, rfl⟩⟩
    simp at hh

/-- C1 witness: at current price −1 the engine reports InvalidInput. -/
theorem claim_C1_witness :
    build_plan defaultEngine sW 3 (-1) 0 = Except.error PlanError.invalidInput :=
  (claim_C1 defaultEngine sW 3 (-1) 0).1.mpr (by norm_num)

/-- C8: build_plan never modifies mult_x; whatever the deviation and
volatility, the returned plan carries the snapshot value of mult_x. -/
theorem claim_C8 (e : SignalEngine) (s : CurveSnapshot) (pp cp rv : ℚ)
    (hcp : 0 < cp) (p : CurveUpdatePlan)
    (hp : build_plan e s pp cp rv = Except.ok p) : p.mult_x = s.mult_x := by
  unfold build_plan at hp
  rw [if_neg (not_le.mpr hcp)] at hp
  simp only [Except.ok.injEq] at hp
  subst hp
  rfl

/-- C8 witness: on the concrete high-deviation, high-volatility input the
plan carries the snapshot value of mult_x. -/
theorem claim_C8_witness : planW.mult_x = sW.mult_x :=
  claim_C8 defaultEngine sW 3 2 (1 / 10) (by norm_num) planW build_plan_sW_eval

/-- C9: multiplier floor — whenever the multiplier adjustment triggers
(deviation above tolerance), the returned mult_y is at least 1. -/
theorem claim_C9 (e : SignalEngine) (s : CurveSnapshot) (pp cp rv : ℚ)
    (hcp : 0 < cp) (hdev : e.price_tolerance < |pp / cp - 1|)
    (p : CurveUpdatePlan)
    (hp : build_plan e s pp cp rv = Except.ok p) : 1 ≤ p.mult_y := by
  unfold build_plan at hp
  rw [if_neg (not_le.mpr hcp)] at hp
  simp only [Except.ok.injEq] at hp
  subst hp
  show 1 ≤ (if e.price_tolerance < |pp / cp - 1| then _ else _)
  rw [if_pos hdev]
  exact le_max_left _ _

/-- C9 witness: on the concrete high-deviation input the plan has
mult_y at least 1. -/
theorem claim_C9_witness : 1 ≤ planW.mult_y :=
  claim_C9 defaultEngine sW 3 2 (1 / 10) (by norm_num)
    (by norm_num [defaultEngine, abs_of_nonneg]) planW build_plan_sW_eval

/-- C10: a zero snapshot target_y disables the rebalance output — the
returned plan carries neither target_x nor target_y, however large the
price deviation. -/
theorem claim_C10 (e : SignalEngine) (s : CurveSnapshot) (pp cp rv : ℚ)
    (hcp : 0 < cp) (hty : s.target_y = 0) (p : CurveUpdatePlan)
    (hp : build_plan e s pp cp rv = Except.ok p) :
    p.target_x = none ∧ p.target_y = none := by
  unfold build_plan at hp
  rw [if_neg (not_le.mpr hcp)] at hp
  simp only [Except.ok.injEq] at hp
  subst hp
  simp [hty]

/-- C10 witness: on the concrete input with zero snapshot target_y and a
huge deviation, the plan carries no rebalance targets. -/
theorem claim_C10_witness : plan0.target_x = none ∧ plan0.target_y = none :=
  claim_C10 defaultEngine s0 19 10 0 (by norm_num) rfl plan0 build_plan_s0_eval

/-- C2 counterexample: with snapshot mult_y = 1, predicted price 19 and
current price 10 (price ratio 19/10, deviation 9/10 above the default
tolerance), the engine returns mult_y = 1 — Python int truncation of
1.9 — whereas rounding, as the claim states, would give
max(1, round(1.9)) = 2. -/
theorem claim_C2_counterexample :
    build_plan defaultEngine s0 19 10 0 = Except.ok plan0
    ∧ defaultEngine.price_tolerance < |(19 : ℚ) / 10 - 1|
    ∧ plan0.mult_y ≠ max 1 (round ((s0.mult_y : ℚ) * (19 / 10))) := by
  refine ⟨build_plan_s0_eval, by norm_num [defaultEngine, abs_of_nonneg], ?_⟩
  norm_num [plan0, s0, round_eq]

/-- C2 (amended): with current_price > 0, if the deviation exceeds the
tolerance then the returned mult_y is max(1, int(snapshot.mult_y ×
price_ratio)) with int truncating toward zero (not rounding to
nearest); otherwise, including deviation exactly at tolerance, mult_y
is the snapshot value unchanged. -/
theorem claim_C2_amended (e : SignalEngine) (s : CurveSnapshot) (pp cp rv : ℚ)
    (hcp : 0 < cp) (p : CurveUpdatePlan)
    (hp : build_plan e s pp cp rv = Except.ok p) :
    p.mult_y = if e.price_tolerance < |pp / cp - 1| then
      max 1 (pyInt ((s.mult_y : ℚ) * (pp / cp)))
    else s.mult_y := by
  unfold build_plan at hp
  rw [if_neg (not_le.mpr hcp)] at hp
  simp only [Except.ok.injEq] at hp
  subst hp
  rfl

/-- C2 witness: on the concrete high-deviation input the plan has
mult_y = max(1, int(7 × 3/2)) = 10. -/
theorem claim_C2_witness : planW.mult_y = max 1 (pyInt ((7 : ℚ) * (3 / 2))) := by
  have h := claim_C2_amended defaultEngine sW 3 2 (1 / 10) (by norm_num) planW
    build_plan_sW_eval
  rwa [if_pos (by norm_num [defaultEngine, abs_of_nonneg]), show sW.mult_y = 7 from rfl] at h

/-- C3 counterexample: with snapshot target_y = 1 and price ratio 19/10,
Python int truncation gives a candidate target_y of 1, equal to the
snapshot, so the engine emits no rebalance pair — whereas rounding, as
the claim states, would give candidate 2 ≠ 1 and force the pair to be
emitted. -/
theorem claim_C3_counterexample :
    build_plan defaultEngine s3 19 10 0 = Except.ok plan3
    ∧ defaultEngine.price_tolerance < |(19 : ℚ) / 10 - 1|
    ∧ 0 < s3.target_y
    ∧ round ((s3.target_y : ℚ) * (19 / 10)) ≠ s3.target_y
    ∧ plan3.target_x = none ∧ plan3.target_y = none := by
  refine ⟨build_plan_s3_eval, by norm_num [defaultEngine, abs_of_nonneg],
    by norm_num [s3], ?_, rfl, rfl⟩
  norm_num [s3, round_eq]

/-- C3 (amended): with current_price > 0, the candidate target_y is
int(snapshot.target_y × price_ratio) — truncation toward zero, not
rounding — when the deviation exceeds the tolerance and
snapshot.target_y > 0, and the snapshot value otherwise; the candidate
target_x is always the snapshot value.  The plan carries the pair
(some target_x, some target_y) exactly when the candidate target_y
differs from the snapshot value, and carries neither otherwise. -/
theorem claim_C3_amended (e : SignalEngine) (s : CurveSnapshot) (pp cp rv : ℚ)
    (hcp : 0 < cp) (p : CurveUpdatePlan)
    (hp : build_plan e s pp cp rv = Except.ok p) :
    let candY := if e.price_tolerance < |pp / cp - 1| ∧ 0 < s.target_y then
      pyInt ((s.target_y : ℚ) * (pp / cp))
    else s.target_y
    p.target_x = (if candY ≠ s.target_y then some s.target_x else none)
    ∧ p.target_y = (if candY ≠ s.target_y then some candY else none) := by
  intro candY
  unfold build_plan at hp
  rw [if_neg (not_le.mpr hcp)] at hp
  simp only [Except.ok.injEq] at hp
  subst hp
  by_cases h : candY = s.target_y
  · simp only [candY] at h ⊢
    simp [h]
  · simp only [candY] at h ⊢
    simp [h]

/-- C3 witness: on the concrete high-deviation input with snapshot
target 13 and ratio 3/2, the candidate 19 differs from 13, so the plan
carries the pair (some 11, some 19). -/
theorem claim_C3_witness : planW.target_x = some 11 ∧ planW.target_y = some 19 := by
  have h := claim_C3_amended defaultEngine sW 3 2 (1 / 10) (by norm_num) planW
    build_plan_sW_eval
  norm_num [sW, defaultEngine, pyInt, abs_of_nonneg] at h
  exact h

/-- C4: rebalance atomicity — in every plan the engine returns, the two
target fields are both absent, or both present with the emitted
target_x equal to the snapshot value and the emitted target_y differing
from the snapshot value (so at least one component differs). -/
theorem claim_C4 (e : SignalEngine) (s : CurveSnapshot) (pp cp rv : ℚ)
    (p : CurveUpdatePlan) (hp : build_plan e s pp cp rv = Except.ok p) :
    (p.target_x = none ∧ p.target_y = none)
    ∨ (p.target_x = some s.target_x ∧ p.target_y ≠ none
        ∧ p.target_y ≠ some s.target_y) := by
  unfold build_plan at hp
  rcases le_or_lt cp 0 with h | h
  · rw [if_pos h] at hp
    exact absurd hp (by simp)
  · rw [if_neg (not_le.mpr h)] at hp
    simp only [Except.ok.injEq] at hp
    subst hp
    by_cases hc : (if e.price_tolerance < |pp / cp - 1| ∧ 0 < s.target_y then
        pyInt ((s.target_y : ℚ) * (pp / cp)) else s.target_y) = s.target_y
    · left
      simp [hc]
    · right
      exact ⟨by simp [hc], by simp [hc], by simp [hc]⟩

/-- C4 witness: on the concrete input the two target fields of the
returned plan are present together — one is absent exactly when the
other is. -/
theorem claim_C4_witness : planW.target_x = none ↔ planW.target_y = none := by
  rcases claim_C4 defaultEngine sW 3 2 (1 / 10) planW build_plan_sW_eval with
    ⟨hx, hy⟩ | ⟨hx, hy, _⟩
  · rw [hx, hy]
  · rw [hx]
    constructor
    · intro h
      exact absurd h (by simp)
    · intro h
      exact absurd h hy

/-- C5: the spread field is present in the plan exactly when the
realized volatility strictly exceeds the threshold, in which case it
equals min(FEE_BASE, snapshot.spread + spread_step) with
FEE_BASE = 1 000 000; in particular it never exceeds FEE_BASE. -/
theorem claim_C5 (e : SignalEngine) (s : CurveSnapshot) (pp cp rv : ℚ)
    (hcp : 0 < cp) (p : CurveUpdatePlan)
    (hp : build_plan e s pp cp rv = Except.ok p) :
    p.spread = (if e.volatility_threshold < rv then
      some (min 1000000 (s.spread + e.spread_step)) else none)
    ∧ p.spread.getD 0 ≤ 1000000 := by
  have hsp : p.spread = (if e.volatility_threshold < rv then
      some (min FEE_BASE (s.spread + e.spread_step)) else none) := by
    unfold build_plan at hp
    rw [if_neg (not_le.mpr hcp)] at hp
    simp only [Except.ok.injEq] at hp
    subst hp
    rfl
  rw [hsp]
  unfold FEE_BASE
  refine ⟨rfl, ?_⟩
  by_cases h : e.volatility_threshold < rv
  · rw [if_pos h]
    exact min_le_left _ _
  · rw [if_neg h]
    norm_num

/-- C5 witness: on the concrete high-volatility input the plan carries
spread = min(1000000, 100 + 500) = 600, which is at most FEE_BASE. -/
theorem claim_C5_witness : planW.spread = some 600 ∧ planW.spread.getD 0 ≤ 1000000 := by
  have h := claim_C5 defaultEngine sW 3 2 (1 / 10) (by norm_num) planW
    build_plan_sW_eval
  refine ⟨?_, h.2⟩
  rw [h.1, if_pos (by norm_num [defaultEngine])]
  norm_num [sW, defaultEngine]

/-- Clamping into an interval with ordered endpoints lands inside it. -/
lemma clamp_mem (lo hi x : ℤ) (h : lo ≤ hi) :
    lo ≤ max lo (min x hi) ∧ max lo (min x hi) ≤ hi :=
  ⟨le_max_left _ _, max_le h (min_le_right _ _)⟩

/-- C6: the returned concentration is the widened (truncated) snapshot
concentration clamped into the bounds when volatility strictly exceeds
the threshold, and the snapshot concentration clamped into the bounds
otherwise; with ordered bounds the result lies inside them, and an
in-bounds snapshot concentration passes through unchanged in the
normal-volatility branch. -/
theorem claim_C6 (e : SignalEngine) (s : CurveSnapshot) (pp cp rv : ℚ)
    (hcp : 0 < cp) (p : CurveUpdatePlan)
    (hp : build_plan e s pp cp rv = Except.ok p) :
    p.concentration = (if e.volatility_threshold < rv then
      max e.concentration_bounds.1
        (min (pyInt ((s.concentration : ℚ) * e.concentration_widen_factor))
          e.concentration_bounds.2)
    else
      max e.concentration_bounds.1 (min s.concentration e.concentration_bounds.2))
    ∧ (e.concentration_bounds.1 ≤ e.concentration_bounds.2 →
        e.concentration_bounds.1 ≤ p.concentration
        ∧ p.concentration ≤ e.concentration_bounds.2)
    ∧ (¬ e.volatility_threshold < rv →
        e.concentration_bounds.1 ≤ s.concentration →
        s.concentration ≤ e.concentration_bounds.2 →
        p.concentration = s.concentration) := by
  have hc : p.concentration = (if e.volatility_threshold < rv then
      max e.concentration_bounds.1
        (min (pyInt ((s.concentration : ℚ) * e.concentration_widen_factor))
          e.concentration_bounds.2)
    else
      max e.concentration_bounds.1 (min s.concentration e.concentration_bounds.2)) := by
    unfold build_plan at hp
    rw [if_neg (not_le.mpr hcp)] at hp
    simp only [Except.ok.injEq] at hp
    subst hp
    rfl
  refine ⟨hc, fun hb => ?_, fun hv h1 h2 => ?_⟩
  · rw [hc]
    by_cases h : e.volatility_threshold < rv
    · rw [if_pos h]
      exact clamp_mem _ _ _ hb
    · rw [if_neg h]
      exact clamp_mem _ _ _ hb
  · rw [hc, if_neg hv, min_eq_left h2, max_eq_right h1]

/-- C6 witness: on the concrete normal-volatility input the in-bounds
snapshot concentration passes through unchanged. -/
theorem claim_C6_witness : planLow.concentration = sW.concentration := by
  have h := claim_C6 defaultEngine sW 3 2 0 (by norm_num) planLow
    build_plan_sW_low_eval
  exact h.2.2 (by norm_num [defaultEngine]) (by norm_num [sW, defaultEngine])
    (by norm_num [sW, defaultEngine])

/-- C7 counterexample: a snapshot whose spread already equals FEE_BASE,
under high volatility, yields a plan that carries a spread value equal
to the snapshot spread — the spread field is present although the
spread does not change. -/
theorem claim_C7_counterexample :
    build_plan defaultEngine s7 1 1 (1 / 10) = Except.ok plan7
    ∧ plan7.spread = some s7.spread :=
  ⟨build_plan_s7_eval, rfl⟩

/-- C7 (amended): whenever the returned plan carries a spread value,
that value differs from the snapshot spread, provided that spread_step
is positive and the snapshot spread is not already FEE_BASE (at
snapshot.spread = FEE_BASE the min cap makes the carried value equal
the snapshot spread). -/
theorem claim_C7_amended (e : SignalEngine) (s : CurveSnapshot) (pp cp rv : ℚ)
    (hcp : 0 < cp) (hstep : 0 < e.spread_step) (hs : s.spread ≠ FEE_BASE)
    (p : CurveUpdatePlan) (hp : build_plan e s pp cp rv = Except.ok p) :
    p.spread ≠ some s.spread := by
  have hsp : p.spread = (if e.volatility_threshold < rv then
      some (min FEE_BASE (s.spread + e.spread_step)) else none) := by
    unfold build_plan at hp
    rw [if_neg (not_le.mpr hcp)] at hp
    simp only [Except.ok.injEq] at hp
    subst hp
    rfl
  rw [hsp]
  by_cases h : e.volatility_threshold < rv
  · rw [if_pos h]
    intro heq
    rw [Option.some.injEq] at heq
    unfold FEE_BASE at heq hs
    rw [min_def] at heq
    split_ifs at heq
    · exact hs heq.symm
    · omega
  · rw [if_neg h]
    simp

/-- C7 witness: on the concrete high-volatility input with snapshot
spread 100 and step 500, the carried spread differs from the snapshot
value. -/
theorem claim_C7_witness : planW.spread ≠ some sW.spread :=
  claim_C7_amended defaultEngine sW 3 2 (1 / 10) (by norm_num)
    (by norm_num [defaultEngine]) (by norm_num [sW, FEE_BASE]) planW
    build_plan_sW_eval

end PropAMM
